import Mathlib

/-!
Verification of `src/packages/lane_following/src/lane_following_node.py`
(repository CMPUT412-Friday-Lab-Team/Pj412).

The file shallowly embeds the decision logic of the lane-following node:
the debounced stop-line gate of `callback`/`stopline_processing`, the
PD controller and the maneuver branch of `drive`, the `general_callback`
message handler, the shutdown `hook`, and the `__main__` control loop.
Python floats are modelled as exact rationals, Python ints as `Int`/`Nat`,
a Python `None`-able field as `Option`, and the fallible derivative
computation (which can raise `ZeroDivisionError`) as `Except`.
The pixel-level OpenCV operations (color masks, contour extraction,
moments) are out of scope per the specification; the contours they
produce are modelled abstractly by their area and centroid abscissa,
which is all the selection logic in `callback` reads.
-/

namespace Pj412

/-- Constant `STOP_TIMER_RESET_TIME = 60` (line 22): the stop-line
cooldown, counted in perception-callback invocations. -/
def STOP_TIMER_RESET_TIME : ℤ := 60

/-- Default proportional gain `self.P = 0.049` (line 43). -/
def defaultP : ℚ := 49/1000

/-- Default derivative gain `self.D = -0.004` (line 44). -/
def defaultD : ℚ := -(4/1000)

/-- Cruise linear velocity `self.velocity = 0.36` (line 39). -/
def velocity : ℚ := 36/100

/-- Turn speed scale `self.speed = .6` (line 40). -/
def speed : ℚ := 6/10

/-- Lane target offset `self.offset = 220` (line 38, non-ENGLISH branch). -/
def laneOffset : ℤ := 220

/-- A `Twist2DStamped` command: linear velocity `v` and angular velocity
`omega` (the fields of `self.twist`, line 41). -/
structure Twist where
  v : ℚ
  omega : ℚ
deriving DecidableEq, Repr

/-- Observable actions of the node, in program order: publishing the
persistent twist on `vel_pub` (continuous mode), the DeadReckoning calls
`stop`, `reset_position`, `set_turn_flag` and `driveForTime` issued by the
maneuver branch of `drive`, and the lock-guarded clearing of `prep_turn`. -/
inductive Event where
  | publishTwist (v omega : ℚ)
  | stopCmd (ticks : ℕ)
  | resetPosition
  | setTurnFlag (b : Bool)
  | driveForTime (left right : ℚ) (ticks : ℕ)
  | clearPrepTurn
deriving DecidableEq, Repr

/-! ### Stop-line debounce gate (`callback` lines 83-94, `stopline_processing` lines 202-206) -/

/-- The lock-guarded shared fields touched by the perception callback:
`self.stop_timer_reset` (a Python int, initially 0) and `self.prep_turn`. -/
structure DebounceState where
  stop_timer_reset : ℤ
  prep_turn : Bool
deriving DecidableEq, Repr

/-- One perception-callback invocation, as it acts on the shared debounce
fields.  Lines 83-86 read `stop_timer_reset` and write
`max(0, stop_timer_reset - 1)`; line 92 calls `stopline_processing` only when
the value read was `0` (and the bot expects a red stop line); lines 202-206
then set `stop_timer_reset = STOP_TIMER_RESET_TIME` and `prep_turn = True`
when the detected contour is close enough (`contour_y > 390`).  The input
`detect` abstracts a trigger-eligible detection: lane following enabled,
a red stop line expected, and an eligible contour in the frame. -/
def callbackStep (s : DebounceState) (detect : Bool) : DebounceState :=
  let pre := s.stop_timer_reset
  if pre == 0 && detect then
    { stop_timer_reset := STOP_TIMER_RESET_TIME, prep_turn := true }
  else
    { s with stop_timer_reset := max 0 (pre - 1) }

/-- The sequence of values written to `stop_timer_reset` during one
callback invocation: the decrement write of line 85 always happens, and a
trigger additionally writes the cooldown constant at line 204. -/
def callbackWrites (s : DebounceState) (detect : Bool) : List ℤ :=
  if s.stop_timer_reset == 0 && detect then
    [max 0 (s.stop_timer_reset - 1), STOP_TIMER_RESET_TIME]
  else
    [max 0 (s.stop_timer_reset - 1)]

/-- Run a sequence of perception callbacks, one Boolean detection input per
invocation. -/
def runSteps : DebounceState → List Bool → DebounceState
  | s, [] => s
  | s, d :: ds => runSteps (callbackStep s d) ds

/-- Count how many `prep_turn = true` transitions (stop-line triggers) a
sequence of callback invocations produces. -/
def countTriggers : DebounceState → List Bool → ℕ
  | _, [] => 0
  | s, d :: ds =>
      (if s.stop_timer_reset == 0 && d then 1 else 0) + countTriggers (callbackStep s d) ds

/-! ### PD controller (continuous branch of `drive`, lines 154-172) -/

/-- The control-loop-owned state read and written by the continuous branch
of `drive`: `self.proportional` (written by the perception callback, `None`
when lane following is disabled), `self.last_error`, `self.last_time`, and
the persistent `self.twist` message. -/
structure PIDState where
  proportional : Option ℚ
  last_error : ℚ
  last_time : ℚ
  twist : Twist
deriving DecidableEq, Repr

/-- The continuous (non-turning) branch of `drive` (lines 154-172), with the
gains as parameters.  If `proportional` is `None`, only `twist.omega` is set
to 0 (line 156) and the twist is published.  Otherwise the P term is
`-proportional * P` (line 159) and the derivative is
`(proportional - last_error) / (now - last_time)` (line 162) — the division
is unguarded, so a zero elapsed time raises `ZeroDivisionError`, modelled as
`Except.error`; `last_error`/`last_time` are updated, `twist.v` is set to
the cruise velocity and `twist.omega` to `P + D` before publishing. -/
def driveContinuous (P D : ℚ) (s : PIDState) (now : ℚ) :
    Except String (PIDState × List Event) :=
  match s.proportional with
  | none =>
      let tw : Twist := { v := s.twist.v, omega := 0 }
      Except.ok ({ s with twist := tw }, [Event.publishTwist tw.v tw.omega])
  | some prop =>
      if now - s.last_time = 0 then
        Except.error "ZeroDivisionError"
      else
        let Pterm := -prop * P
        let d_error := (prop - s.last_error) / (now - s.last_time)
        let Dterm := d_error * D
        let tw : Twist := { v := velocity, omega := Pterm + Dterm }
        Except.ok ({ s with last_error := prop, last_time := now, twist := tw },
                   [Event.publishTwist tw.v tw.omega])

/-! ### Maneuver branch of `drive` (lines 132-153) -/

/-- The ordered actions of the turning branch of `drive` (lines 132-153):
stop for 20 ticks, reset odometry, raise the turn flag, run the common
approach segment `driveForTime(.6, .6, 6)`, then the per-turn segment
selected by `turn_idx` (lines 143-148, speeds scaled by `self.speed`),
lower the turn flag, and finally clear `prep_turn` under the lock
(lines 151-153). -/
def maneuverEvents (turn_idx : ℤ) : List Event :=
  [Event.stopCmd 20, Event.resetPosition, Event.setTurnFlag true,
   Event.driveForTime (6/10) (6/10) 6]
  ++ (if turn_idx = 0 then [Event.driveForTime (58/100 * speed) (142/100 * speed) 40]
      else if turn_idx = 1 then [Event.driveForTime (9/10 * speed) (11/10 * speed) 75]
      else if turn_idx = 2 then [Event.driveForTime (147/100 * speed) (53/100 * speed) 15]
      else [])
  ++ [Event.setTurnFlag false, Event.clearPrepTurn]

/-- Recognizes a timed wheel command. -/
def isDrive : Event → Bool
  | Event.driveForTime _ _ _ => true
  | _ => false

/-- Recognizes the lock-guarded clearing of `prep_turn`. -/
def isClear : Event → Bool
  | Event.clearPrepTurn => true
  | _ => false

/-- Recognizes a continuous-mode command (a `vel_pub.publish(self.twist)`). -/
def isPublish : Event → Bool
  | Event.publishTwist _ _ => true
  | _ => false

/-- The timed wheel commands of an event trace, in order. -/
def driveCommands (evs : List Event) : List (ℚ × ℚ × ℕ) :=
  evs.filterMap fun e =>
    match e with
    | Event.driveForTime l r t => some (l, r, t)
    | _ => none

/-! ### Perception adapter output (`callback` lines 105-126) -/

/-- A road-colored contour of the cropped frame, abstracted (per the spec,
contour extraction itself is a black box) by the two quantities the
selection logic reads: its area (`cv2.contourArea`) and the abscissa of its
centroid (`int(M[m10]/M[m00])`). -/
structure Contour where
  area : ℚ
  cx : ℤ
deriving DecidableEq, Repr

/-- The selection loop of lines 106-112: starting from `max_area = 20` and
no candidate, keep the contour of strictly largest area exceeding the
running bound. -/
def findLane (contours : List Contour) : ℚ × Option Contour :=
  contours.foldl
    (fun acc c => if c.area > acc.1 then (c.area, some c) else acc)
    (20, none)

/-- The value `callback` leaves in `self.proportional`.  If lane following
is disabled the callback sets it to `None` and returns (lines 87-89).
Otherwise, if the selection found a contour, lines 114-119 set
`proportional = cx - int(crop_width / 2) + offset`; if no contour exceeded
the area bound, line 126 sets `proportional = -100` ("assume off to the
right"). -/
def callbackProportional (lane_following : Bool) (contours : List Contour)
    (crop_width : ℕ) (off : ℤ) : Option ℤ :=
  if !lane_following then none
  else
    match (findLane contours).2 with
    | some c => some (c.cx - (crop_width / 2 : ℕ) + off)
    | none => some (-100)

/-! ### General message handler (`general_callback` lines 69-73) -/

/-- The state visible to `general_callback`: whether a ROS shutdown has been
requested, the `self.continue_run` attribute it writes, and the
lane-following-enabled flag of `self.bot_state` (the flag lives in the
`state_machine` module; here it is just a Boolean field, which suffices
because `general_callback` never touches `self.bot_state`). -/
structure GeneralState where
  shutdown_requested : Bool
  continue_run : Bool
  lane_following_enabled : Bool
deriving DecidableEq, Repr

/-- `general_callback` (lines 69-73): on `"shutdown"` it requests a ROS
shutdown; on `"stop"` it sets `self.continue_run = False`; any other
message is ignored.  No other field is written. -/
def general_callback (msg : String) (s : GeneralState) : GeneralState :=
  if msg = "shutdown" then { s with shutdown_requested := true }
  else if msg = "stop" then { s with continue_run := false }
  else s

/-! ### Shutdown hook (lines 208-214) and the main loop (lines 217-222) -/

/-- `hook` (lines 208-214): zero both twist fields, publish once, then
publish eight more times in a loop. -/
def hook (s : PIDState) : PIDState × List Event :=
  let tw : Twist := { v := 0, omega := 0 }
  let s' := { s with twist := tw }
  (s', Event.publishTwist tw.v tw.omega ::
       (List.range 8).map (fun _ => Event.publishTwist tw.v tw.omega))

/-- Run the continuous branch of `drive` once per control tick; each tick
supplies the `proportional` value most recently written by the perception
callback and the current time. -/
def runDrive (P D : ℚ) : PIDState → List (Option ℚ × ℚ) →
    Except String (PIDState × List Event)
  | s, [] => Except.ok (s, [])
  | s, (prop, now) :: rest =>
    match driveContinuous P D { s with proportional := prop } now with
    | Except.error e => Except.error e
    | Except.ok (s1, evs) =>
      match runDrive P D s1 rest with
      | Except.error e => Except.error e
      | Except.ok (s2, evs2) => Except.ok (s2, evs ++ evs2)

/-- Everything the process emits when the `__main__` block (lines 217-222)
runs the given ticks in continuous mode and then ROS shutdown ends the
loop.  The source registers no shutdown hook — `rospy.on_shutdown` is never
called and `hook` is never invoked anywhere — so nothing at all is emitted
after the last tick. -/
def mainEmittedEvents (P D : ℚ) (s : PIDState) (ticks : List (Option ℚ × ℚ)) :
    Except String (List Event) :=
  (runDrive P D s ticks).map (fun r => r.2)

/-- The PID-related state at node construction (`__init__` lines 34-46):
`proportional = None`, `last_error = 0`, and the persistent twist starts at
`Twist2DStamped(v=self.velocity, omega=0)`. -/
def initState : PIDState :=
  { proportional := none, last_error := 0, last_time := 0,
    twist := { v := velocity, omega := 0 } }

end Pj412

namespace Pj412

/-! ## Helper lemmas -/

/-- A run of callback invocations no longer than the current cooldown value
produces no stop-line trigger: each step sees a positive pre-decrement
value, so `stopline_processing` is never reached. -/
theorem countTriggers_eq_zero (ds : List Bool) :
    ∀ s : DebounceState, (ds.length : ℤ) ≤ s.stop_timer_reset →
      countTriggers s ds = 0 := by
  induction ds with
  | nil => intro s _; rfl
  | cons d ds ih =>
      intro s h
      simp only [List.length_cons, Nat.cast_add, Nat.cast_one] at h
      have hpos : 0 < s.stop_timer_reset := by
        have : (0:ℤ) ≤ (ds.length : ℤ) := Int.natCast_nonneg _
        omega
      have hne : (s.stop_timer_reset == 0) = false := by
        simp only [beq_eq_false_iff_ne, ne_eq]
        omega
      have hmax : max 0 (s.stop_timer_reset - 1) = s.stop_timer_reset - 1 :=
        max_eq_right (by omega)
      simp only [countTriggers, hne, Bool.false_and, if_neg Bool.false_ne_true]
      rw [ih (callbackStep s d)]
      simp only [callbackStep, hne, Bool.false_and, if_neg Bool.false_ne_true, hmax]
      omega

end Pj412

namespace Pj412

/-! ## Claim theorems -/

/-- C1: in continuous (non-turning) mode, whenever the lateral error
(`self.proportional`) is `None`, the angular velocity produced by the PID
branch of `drive` is 0, for every value of the P and D gains. -/
theorem pid_none_zero_omega (P D : ℚ) (s : PIDState) (now : ℚ)
    (h : s.proportional = none) :
    (driveContinuous P D s now).map (fun r => r.1.twist.omega) = Except.ok 0 := by
  simp [driveContinuous, h, Except.map]

/-- Witness for C1 at a concrete state with `proportional = None`. -/
theorem pid_none_zero_omega_witness :
    (driveContinuous 2 3 initState 1).map (fun r => r.1.twist.omega) = Except.ok 0 :=
  pid_none_zero_omega 2 3 initState 1 rfl

/-- C2 divergence: the derivative division of `drive` (line 162) is not
guarded.  With `proportional = 10`, `last_error = 0`, `last_time = 5` and a
previous angular output of 7: at `now = 5` (zero elapsed time) the tick
raises `ZeroDivisionError` instead of skipping the derivative and reusing
the previous output, and at `now = 4` (negative elapsed time) it divides by
the degenerate interval and publishes a fresh omega of `-0.45` instead of
reusing the previous output 7. -/
theorem pid_elapsed_unguarded :
    driveContinuous defaultP defaultD
        { proportional := some 10, last_error := 0, last_time := 5,
          twist := { v := velocity, omega := 7 } } 5
      = Except.error "ZeroDivisionError" ∧
    driveContinuous defaultP defaultD
        { proportional := some 10, last_error := 0, last_time := 5,
          twist := { v := velocity, omega := 7 } } 4
      = Except.ok ({ proportional := some 10, last_error := 10, last_time := 4,
                     twist := { v := velocity, omega := -(45/100) } },
                   [Event.publishTwist velocity (-(45/100))]) := by
  constructor
  · norm_num [driveContinuous]
  · norm_num [driveContinuous, defaultP, defaultD, velocity]

end Pj412

namespace Pj412

/-- C3: the stop-line trigger is debounced.  Starting from an eligible
state (`stop_timer_reset = 0`), a trigger-eligible detection produces one
`prep_turn = true` transition, and every further callback invocation within
one cooldown window (at most `STOP_TIMER_RESET_TIME` invocations, whatever
it detects — in particular a second trigger-eligible detection) produces no
further transition: the whole run produces exactly one. -/
theorem debounce_single_trigger (s : DebounceState) (ds : List Bool)
    (h0 : s.stop_timer_reset = 0) (hlen : (ds.length : ℤ) ≤ STOP_TIMER_RESET_TIME) :
    countTriggers s (true :: ds) = 1 := by
  have hb : (s.stop_timer_reset == 0 && true) = true := by
    simp [h0]
  rw [countTriggers, if_pos hb, callbackStep]
  simp only [h0, hb]
  rw [countTriggers_eq_zero ds _ hlen]

/-- Witness for C3: two trigger-eligible detections in a row (the second
well inside the cooldown window) produce exactly one transition. -/
theorem debounce_single_trigger_witness :
    countTriggers { stop_timer_reset := 0, prep_turn := false } [true, true, true] = 1 :=
  debounce_single_trigger { stop_timer_reset := 0, prep_turn := false }
    [true, true] rfl (by decide)

/-- C8: within one callback invocation, every value written to
`stop_timer_reset` is nonnegative; when no trigger fires the single write is
the decrement, which never increases the field; and the only increasing
write is the reset to the cooldown constant `STOP_TIMER_RESET_TIME` when a
trigger fires. -/
theorem stop_timer_monotone (s : DebounceState) (d : Bool)
    (h : 0 ≤ s.stop_timer_reset) :
    (∀ w ∈ callbackWrites s d, 0 ≤ w) ∧
    (¬(s.stop_timer_reset = 0 ∧ d = true) →
        callbackWrites s d = [(callbackStep s d).stop_timer_reset] ∧
        (callbackStep s d).stop_timer_reset ≤ s.stop_timer_reset) ∧
    ((s.stop_timer_reset = 0 ∧ d = true) →
        callbackWrites s d = [0, STOP_TIMER_RESET_TIME]) := by
  have hmax : (0:ℤ) ≤ max 0 (s.stop_timer_reset - 1) := le_max_left _ _
  by_cases hb : (s.stop_timer_reset == 0 && d) = true
  · have hd : s.stop_timer_reset = 0 ∧ d = true := by
      simpa only [Bool.and_eq_true, beq_iff_eq] using hb
    refine ⟨?_, fun hcon => absurd hd hcon, fun _ => ?_⟩
    · intro w hw
      simp only [callbackWrites, if_pos hb, List.mem_cons, List.not_mem_nil,
        or_false] at hw
      rcases hw with hw | hw
      · rw [hw]; exact hmax
      · rw [hw]; simp [STOP_TIMER_RESET_TIME]
    · rw [callbackWrites, if_pos hb, hd.1]
      norm_num
  · have hd : ¬(s.stop_timer_reset = 0 ∧ d = true) := by
      intro hcon
      exact hb (by simp [hcon.1, hcon.2])
    refine ⟨?_, fun _ => ?_, fun hcon => absurd hcon hd⟩
    · intro w hw
      simp only [callbackWrites, if_neg hb, List.mem_cons, List.not_mem_nil,
        or_false] at hw
      rw [hw]; exact hmax
    · have h1 : (callbackStep s d).stop_timer_reset = max 0 (s.stop_timer_reset - 1) := by
        rw [callbackStep, if_neg hb]
      refine ⟨by rw [callbackWrites, if_neg hb, h1], ?_⟩
      rw [h1]
      exact max_le h (by omega)

/-- Witness for C8 at `stop_timer_reset = 5` with no detection. -/
theorem stop_timer_monotone_witness :
    (∀ w ∈ callbackWrites { stop_timer_reset := 5, prep_turn := false } false, 0 ≤ w) ∧
    (¬((DebounceState.mk 5 false).stop_timer_reset = 0 ∧ false = true) →
        callbackWrites { stop_timer_reset := 5, prep_turn := false } false
          = [(callbackStep { stop_timer_reset := 5, prep_turn := false } false).stop_timer_reset] ∧
        (callbackStep { stop_timer_reset := 5, prep_turn := false } false).stop_timer_reset
          ≤ (DebounceState.mk 5 false).stop_timer_reset) ∧
    (((DebounceState.mk 5 false).stop_timer_reset = 0 ∧ false = true) →
        callbackWrites { stop_timer_reset := 5, prep_turn := false } false
          = [0, STOP_TIMER_RESET_TIME]) :=
  stop_timer_monotone { stop_timer_reset := 5, prep_turn := false } false (by decide)

end Pj412

namespace Pj412

/-- C4 counterexample: in the maneuver for `turn_idx = 0`, `prep_turn` is
cleared exactly once, but both timed drive commands are issued strictly
before the clearing — the clear is at the end of the maneuver (lines
151-153), not at its start as the claim states. -/
theorem prep_turn_clear_not_before_drives :
    ((maneuverEvents 0).countP isClear = 1) ∧
    (((maneuverEvents 0).takeWhile (fun e => !(isClear e))).countP isDrive = 2) := by
  norm_num [maneuverEvents, isClear, isDrive, List.countP, List.countP.go, List.takeWhile]

/-- C4 amended: for every turn identifier, the maneuver branch of `drive`
clears `prep_turn` exactly once per consumed trigger, under the shared
lock, as the very last action of the maneuver — after all timed drive
commands, not before them. -/
theorem prep_turn_cleared_once_at_end (t : ℤ) :
    (maneuverEvents t).countP isClear = 1 ∧
    (maneuverEvents t).getLast? = some Event.clearPrepTurn := by
  rcases eq_or_ne t 0 with h | h
  · subst h
    norm_num [maneuverEvents, isClear, List.countP, List.countP.go]
  rcases eq_or_ne t 1 with h1 | h1
  · subst h1
    norm_num [maneuverEvents, isClear, List.countP, List.countP.go]
  rcases eq_or_ne t 2 with h2 | h2
  · subst h2
    norm_num [maneuverEvents, isClear, List.countP, List.countP.go]
  · norm_num [maneuverEvents, isClear, h, h1, h2, List.countP, List.countP.go]

/-- C5 counterexample: a frame whose only road-colored contour has area
exactly 20 px² (not exceeding the threshold) does not yield
`LateralError = None`: with lane following enabled, `callback` sets
`proportional` to the fallback value `-100` (line 126, "assume off to the
right"). -/
theorem small_area_not_none :
    callbackProportional true [{ area := 20, cx := 100 }] 640 220 ≠ none := by
  norm_num [callbackProportional, findLane]
  exact Option.some_ne_none _

/-- C5 amended: for a frame whose largest road-colored region has area not
exceeding 20 px², the produced lateral error is the fallback value `-100`
(assume off to the right), not `None`; for a frame with one region of area
500 px² whose centroid abscissa is 300 in a 640-pixel-wide crop, with
offset 220, the produced lateral error is `300 - 320 + 220 = 200`. -/
theorem perception_scenario :
    callbackProportional true [{ area := 20, cx := 100 }] 640 220 = some (-100) ∧
    callbackProportional true [{ area := 500, cx := 300 }] 640 220 = some 200 := by
  constructor
  · norm_num [callbackProportional, findLane]
  · norm_num [callbackProportional, findLane]

/-- C6 divergence: on an external `"stop"` message, `general_callback`
(lines 69-73) only sets the never-read attribute `continue_run` to false;
the lane-following-enabled flag of `bot_state` is untouched, so the control
loop is not caused to hold zero velocity. -/
theorem stop_does_not_disable_lane_following :
    general_callback "stop"
        { shutdown_requested := false, continue_run := true, lane_following_enabled := true }
      = { shutdown_requested := false, continue_run := false, lane_following_enabled := true } := by
  rfl

/-- C7: for `turn_idx = 0`, the maneuver branch issues exactly the two
timed wheel commands `(0.6, 0.6, 6)` and `(0.58 * speed, 1.42 * speed, 40)`
with `speed = 0.6`, in that order, and no continuous-mode command
(`vel_pub.publish`) occurs anywhere in the maneuver. -/
theorem turn0_profile :
    driveCommands (maneuverEvents 0)
      = [(6/10, 6/10, 6), (58/100 * speed, 142/100 * speed, 40)] ∧
    (maneuverEvents 0).countP isPublish = 0 := by
  constructor
  · norm_num [driveCommands, maneuverEvents, List.filterMap]
  · norm_num [maneuverEvents, isPublish, List.countP, List.countP.go]

end Pj412

namespace Pj412

/-- C9 divergence: `hook` (lines 208-214) would emit a burst of nine
zero-velocity commands, but the source never registers it —
`rospy.on_shutdown` is never called and `hook` is invoked nowhere — so the
process's emission trace ends with the last continuous-mode command, which
carries the nonzero cruise velocity, not a zero-velocity command. -/
theorem shutdown_no_zero_burst (s : PIDState) :
    (hook s).2 = List.replicate 9 (Event.publishTwist 0 0) ∧
    mainEmittedEvents defaultP defaultD initState [(none, 1)]
      = Except.ok [Event.publishTwist velocity 0] ∧
    velocity ≠ 0 := by
  refine ⟨rfl, rfl, ?_⟩
  norm_num [velocity]

/-- C10: whenever the lateral error is `None`, the continuous branch of
`drive` zeroes only the angular velocity field of the persistent twist: the
linear velocity field keeps its previous value, so the published command
still carries the previous (cruise) forward velocity — nonzero whenever
that previous value was the cruise velocity. -/
theorem pid_none_frame (P D : ℚ) (s : PIDState) (now : ℚ)
    (h : s.proportional = none) :
    driveContinuous P D s now
      = Except.ok ({ s with twist := { v := s.twist.v, omega := 0 } },
                   [Event.publishTwist s.twist.v 0]) ∧
    (s.twist.v = velocity → s.twist.v ≠ 0) := by
  constructor
  · simp [driveContinuous, h]
  · intro hv
    rw [hv]
    norm_num [velocity]

/-- Witness for C10 at the construction-time state. -/
theorem pid_none_frame_witness :
    (driveContinuous 5 7 initState 2
      = Except.ok ({ initState with twist := { v := initState.twist.v, omega := 0 } },
                   [Event.publishTwist initState.twist.v 0]) ∧
    (initState.twist.v = velocity → initState.twist.v ≠ 0)) :=
  pid_none_frame 5 7 initState 2 rfl

end Pj412
